import Mathlib

/-!
Verification of the enhanced-memory subsystem of mcp-go-py.

Shallow embedding of:
- `src/mcp_pba_tunnel/data/models/prompt_models.py` (pydantic models
  `EnhancedMemoryEntry`, `ContextRelationship` and their field validators),
- `src/mcp_pba_tunnel/data/repositories/prompt_repository.py`
  (`EnhancedMemoryRepository`, `ContextRelationshipRepository`),
- `src/mcp_pba_tunnel/data/services/prompt_service.py` (`PromptService`),
- `src/mcp_pba_tunnel/core/memory_cleanup_service.py` (`MemoryCleanupService`),
- the DDL of `src/mcp_pba_tunnel/data/project_manager.py`
  (`enhanced_memory_entries`, `context_relationships`, including the two
  FOREIGN KEY constraints on `context_relationships`).

Modelling conventions:
- UUID identifiers are abstract: modelled as `Nat`.  UUID-format parsing
  (`UUID(memory_id)` in the service) always succeeds on the abstract ids and
  is not modelled; no claim depends on malformed-UUID handling.
- Timestamps (`datetime`) are integers (epoch seconds); `datetime.utcnow()`
  and server-side `uuid4()` generation are modelled as explicit `now`/`newId`
  parameters of the operations that generate them.
- `float`/`DECIMAL(3,2)` scores are modelled as `ℚ`.
- The JSON `metadata` bag is never inspected by any modelled operation and is
  omitted from the rows.
- A database table is a list of rows; an SQL `ORDER BY k1 DESC, k2 DESC` is
  `List.insertionSort` with the corresponding lexicographic relation, and
  `LIMIT n` is `List.take n`.  The Python repository methods project rows to
  dicts with per-query column subsets; every column any modelled caller reads
  is present in every projection it reads it from, so the model returns whole
  rows.
- psycopg transactions: `DatabaseConfig.get_connection` commits on success and
  rolls back on any exception, so a failing operation is modelled as an
  `Except.error` that leaves the caller's state unchanged.
-/

namespace MCPMemory

/-- Row of the `enhanced_memory_entries` table (fields of the pydantic model
`EnhancedMemoryEntry` in `prompt_models.py` and the DDL in
`project_manager.py`; `metadata` omitted, `vector_embedding` unused). -/
structure EnhancedMemoryEntry where
  id : Nat
  conversation_id : String
  session_id : String
  role : String
  content : String
  context_type : String
  importance_score : ℚ
  tags : List String
  relationships : List Nat
  ttl_seconds : Int
  timestamp : Int
deriving DecidableEq

/-- Row of the `context_relationships` table (pydantic `ContextRelationship`);
`metadata` omitted. -/
structure ContextRelationship where
  id : Nat
  source_memory_id : Nat
  target_memory_id : Nat
  relationship_type : String
  strength : ℚ
  created_at : Int
deriving DecidableEq

/-- The persistent store: the two tables of the memory subsystem. -/
structure DB where
  enhanced_memory_entries : List EnhancedMemoryEntry
  context_relationships : List ContextRelationship
deriving DecidableEq

/-- Errors the modelled operations can produce.  `validationError` is
pydantic's `ValidationError` (raised by field validators before any write);
`foreignKeyViolation` is the psycopg integrity error raised when an INSERT
violates one of the FOREIGN KEY constraints of `context_relationships`.
`notFoundError` is the error class named by the specification's taxonomy
(§7); no code path in the repository produces it (no such class exists in
the source) — it is included so the spec's claim about it can be stated. -/
inductive MCPError where
  | validationError
  | foreignKeyViolation
  | notFoundError
deriving DecidableEq

/-- The SQL ordering `ORDER BY importance_score DESC, timestamp DESC` used by
`get_by_conversation`, `get_by_context_type`, `search_by_tags` and the size
sweep's keep-subquery: `a` sorts no later than `b`. -/
def impTsRel (a b : EnhancedMemoryEntry) : Prop :=
  b.importance_score < a.importance_score ∨
    (a.importance_score = b.importance_score ∧ b.timestamp ≤ a.timestamp)

instance : DecidableRel impTsRel := fun a b => by
  unfold impTsRel; infer_instance

instance : IsTotal EnhancedMemoryEntry impTsRel where
  total a b := by
    rcases lt_trichotomy a.importance_score b.importance_score with h | h | h
    · exact Or.inr (Or.inl h)
    · rcases le_total b.timestamp a.timestamp with h' | h'
      · exact Or.inl (Or.inr ⟨h, h'⟩)
      · exact Or.inr (Or.inr ⟨h.symm, h'⟩)
    · exact Or.inl (Or.inl h)

instance : IsTrans EnhancedMemoryEntry impTsRel where
  trans a b c hab hbc := by
    rcases hab with h1 | ⟨h1, h1'⟩ <;> rcases hbc with h2 | ⟨h2, h2'⟩
    · exact Or.inl (h2.trans h1)
    · exact Or.inl (h2 ▸ h1)
    · exact Or.inl (h1 ▸ h2)
    · exact Or.inr ⟨h1.trans h2, h2'.trans h1'⟩

/-- The SQL ordering `ORDER BY cr.strength DESC, em.importance_score DESC`
of `get_related_memories`, on joined (relationship, target entry) rows. -/
def strengthImpRel (a b : ContextRelationship × EnhancedMemoryEntry) : Prop :=
  b.1.strength < a.1.strength ∨
    (a.1.strength = b.1.strength ∧ b.2.importance_score ≤ a.2.importance_score)

instance : DecidableRel strengthImpRel := fun a b => by
  unfold strengthImpRel; infer_instance

instance : IsTotal (ContextRelationship × EnhancedMemoryEntry) strengthImpRel where
  total a b := by
    rcases lt_trichotomy a.1.strength b.1.strength with h | h | h
    · exact Or.inr (Or.inl h)
    · rcases le_total b.2.importance_score a.2.importance_score with h' | h'
      · exact Or.inl (Or.inr ⟨h, h'⟩)
      · exact Or.inr (Or.inr ⟨h.symm, h'⟩)
    · exact Or.inl (Or.inl h)

instance : IsTrans (ContextRelationship × EnhancedMemoryEntry) strengthImpRel where
  trans a b c hab hbc := by
    rcases hab with h1 | ⟨h1, h1'⟩ <;> rcases hbc with h2 | ⟨h2, h2'⟩
    · exact Or.inl (h2.trans h1)
    · exact Or.inl (h2 ▸ h1)
    · exact Or.inl (h1 ▸ h2)
    · exact Or.inr ⟨h1.trans h2, h2'.trans h1'⟩

/-- Model of `EnhancedMemoryRepository.get_by_conversation`: `WHERE conversation_id = c
ORDER BY importance_score DESC, timestamp DESC LIMIT limit`. -/
def get_by_conversation (db : DB) (conversation_id : String) (limit : Nat) :
    List EnhancedMemoryEntry :=
  (((db.enhanced_memory_entries.filter
      (fun e => e.conversation_id == conversation_id)).insertionSort impTsRel).take limit)

/-- Model of `EnhancedMemoryRepository.get_by_context_type`: `WHERE context_type = ct
ORDER BY importance_score DESC, timestamp DESC LIMIT limit` — note: no
`conversation_id` predicate. -/
def get_by_context_type (db : DB) (context_type : String) (limit : Nat) :
    List EnhancedMemoryEntry :=
  (((db.enhanced_memory_entries.filter
      (fun e => e.context_type == context_type)).insertionSort impTsRel).take limit)

/-- Model of `EnhancedMemoryRepository.search_by_tags`: `WHERE tags && ARRAY[..]`
(array overlap: some entry tag occurs in the query list), same ordering —
note: no `conversation_id` predicate. -/
def search_by_tags (db : DB) (tags : List String) (limit : Nat) :
    List EnhancedMemoryEntry :=
  (((db.enhanced_memory_entries.filter
      (fun e => e.tags.any (fun t => tags.contains t))).insertionSort impTsRel).take limit)

/-- Join rows of `EnhancedMemoryRepository.get_related_memories`: entries `em`
joined with `cr ON em.id = cr.target_memory_id WHERE cr.source_memory_id = m`,
`ORDER BY cr.strength DESC, em.importance_score DESC LIMIT limit`. -/
def get_related_rows (db : DB) (memory_id : Nat) (limit : Nat) :
    List (ContextRelationship × EnhancedMemoryEntry) :=
  ((((db.context_relationships.filter
        (fun r => r.source_memory_id == memory_id)).flatMap
      (fun r => (db.enhanced_memory_entries.filter
          (fun e => e.id == r.target_memory_id)).map
        (fun e => (r, e)))).insertionSort strengthImpRel).take limit)

/-- Model of `EnhancedMemoryRepository.get_related_memories`: returns the entry columns
of the join rows. -/
def get_related_memories (db : DB) (memory_id : Nat) (limit : Nat) :
    List EnhancedMemoryEntry :=
  (get_related_rows db memory_id limit).map Prod.snd

/-- Valid `ContextType` enum values (`prompt_models.py`). -/
def validContextTypes : List String :=
  ["conversation", "code_analysis", "project_task", "web_content",
   "database_query", "test_result", "reasoning_step", "knowledge_base"]

/-- Model of `PromptService.store_enhanced_memory_entry`: constructing the pydantic
`EnhancedMemoryEntry` validates `importance_score` (`ge=0.0, le=1.0`) and
`context_type` (membership in the `ContextType` enum); no other field has a
validator (in particular `content` and `conversation_id` only have to be
strings — the empty string passes).  On success the repository INSERTs one
row.  `newId`/`now` stand for the server-generated `uuid4()` id and
`utcnow()` timestamp.

The row built by the pydantic `EnhancedMemoryEntry` constructor: -/
def new_entry (conversation_id session_id role content context_type : String)
    (importance_score : ℚ) (tags : List String) (relationships : List Nat)
    (ttl_seconds : Int) (newId : Nat) (now : Int) : EnhancedMemoryEntry :=
  { id := newId, conversation_id := conversation_id,
    session_id := session_id, role := role, content := content,
    context_type := context_type, importance_score := importance_score,
    tags := tags, relationships := relationships,
    ttl_seconds := ttl_seconds, timestamp := now }

/-- One INSERT into `enhanced_memory_entries`. -/
def insert_entry (db : DB) (e : EnhancedMemoryEntry) : DB :=
  { db with enhanced_memory_entries := db.enhanced_memory_entries ++ [e] }

def store_enhanced_memory_entry (db : DB)
    (conversation_id session_id role content context_type : String)
    (importance_score : ℚ) (tags : List String) (relationships : List Nat)
    (ttl_seconds : Int) (newId : Nat) (now : Int) :
    Except MCPError (DB × Nat) :=
  if 0 ≤ importance_score ∧ importance_score ≤ 1 ∧
      context_type ∈ validContextTypes then
    .ok (insert_entry db (new_entry conversation_id session_id role content
      context_type importance_score tags relationships ttl_seconds newId now),
      newId)
  else
    .error .validationError

/-- Python truthiness of the optional `context_type : str = None` argument:
`if context_type:` is false for `None` and for the empty string. -/
def truthyStr : Option String → Bool
  | none => false
  | some s => !(s == "")

/-- Model of `PromptService.retrieve_enhanced_memory_entries`: the `if context_type:
... elif tags: ... else ...` dispatch.  `tags = None` and `tags = []` are
both falsy and modelled by the empty list. -/
def retrieve_enhanced_memory_entries (db : DB) (conversation_id : String)
    (context_type : Option String) (tags : List String) (limit : Nat) :
    List EnhancedMemoryEntry :=
  if truthyStr context_type then
    get_by_context_type db (context_type.getD "") limit
  else if !tags.isEmpty then
    search_by_tags db tags limit
  else
    get_by_conversation db conversation_id limit

/-- Model of `PromptService.create_context_relationship`: the service only parses the
UUIDs and constructs the pydantic `ContextRelationship` (validating
`strength` via `ge=0.0, le=1.0`); it performs no existence check.  The
repository INSERT is accepted by the database exactly when both FOREIGN KEY
constraints of `context_relationships` are satisfied, i.e. both endpoints
exist in `enhanced_memory_entries`; otherwise psycopg raises a foreign-key
violation and the transaction is rolled back.

The row built by the pydantic `ContextRelationship` constructor: -/
def new_relationship (source_memory_id target_memory_id : Nat)
    (relationship_type : String) (strength : ℚ) (newId : Nat) (now : Int) :
    ContextRelationship :=
  { id := newId, source_memory_id := source_memory_id,
    target_memory_id := target_memory_id,
    relationship_type := relationship_type, strength := strength,
    created_at := now }

/-- One INSERT into `context_relationships`. -/
def insert_relationship (db : DB) (r : ContextRelationship) : DB :=
  { db with context_relationships := db.context_relationships ++ [r] }

def create_context_relationship (db : DB)
    (source_memory_id target_memory_id : Nat) (relationship_type : String)
    (strength : ℚ) (newId : Nat) (now : Int) :
    Except MCPError (DB × Nat) :=
  if 0 ≤ strength ∧ strength ≤ 1 then
    if (db.enhanced_memory_entries.any (fun e => e.id == source_memory_id)) &&
       (db.enhanced_memory_entries.any (fun e => e.id == target_memory_id)) then
      .ok (insert_relationship db (new_relationship source_memory_id
        target_memory_id relationship_type strength newId now), newId)
    else
      .error .foreignKeyViolation
  else
    .error .validationError

/-- Configuration fields set in `MemoryCleanupService.__init__`. -/
structure MemoryCleanupService where
  cleanup_interval : Int
  max_entries_per_conversation : Nat
  default_ttl : Int

/-- The module-level singleton `memory_cleanup_service`:
interval 3600 s, cap 1000 entries per conversation, default TTL 86400 s. -/
def memory_cleanup_service : MemoryCleanupService :=
  { cleanup_interval := 3600, max_entries_per_conversation := 1000,
    default_ttl := 86400 }

/-- Ids selected by the expiry sweep's SELECT:
`WHERE timestamp < now - default_ttl` (the per-row `ttl_seconds` column is
selected but never used in the predicate). -/
def expired_ids (svc : MemoryCleanupService) (db : DB) (now : Int) : List Nat :=
  (db.enhanced_memory_entries.filter
    (fun e => decide (e.timestamp < now - svc.default_ttl))).map (fun e => e.id)

/-- Model of `MemoryCleanupService.cleanup_expired_entries`: delete the expired ids
from `enhanced_memory_entries`, then delete every relationship whose
`source_memory_id` or `target_memory_id` is among them. -/
def cleanup_expired_entries (svc : MemoryCleanupService) (db : DB) (now : Int) :
    DB :=
  let ids := expired_ids svc db now
  { enhanced_memory_entries :=
      db.enhanced_memory_entries.filter (fun e => !(ids.contains e.id)),
    context_relationships :=
      db.context_relationships.filter
        (fun r => !(ids.contains r.source_memory_id) &&
                  !(ids.contains r.target_memory_id)) }

/-- Entries of one conversation (the `WHERE conversation_id = c` rows, in
table order). -/
def conv_entries (db : DB) (c : String) : List EnhancedMemoryEntry :=
  db.enhanced_memory_entries.filter (fun e => e.conversation_id == c)

/-- The keep-subquery of the size sweep: ids of the rows of conversation `c`
ranked by `importance_score DESC, timestamp DESC`, `LIMIT cap`. -/
def keep_ids (svc : MemoryCleanupService) (db : DB) (c : String) : List Nat :=
  (((conv_entries db c).insertionSort impTsRel).take
    svc.max_entries_per_conversation).map (fun e => e.id)

/-- Model of `MemoryCleanupService.cleanup_large_conversations`: for every conversation
whose entry count exceeds the cap (`HAVING COUNT(*) > cap`, counted before
any delete of this sweep — each loop iteration deletes rows of its own
conversation only, so the counts and keep-subqueries of the other
conversations are unaffected), delete its rows whose id is not in the keep
set. -/
def cleanup_large_conversations (svc : MemoryCleanupService) (db : DB) : DB :=
  { db with enhanced_memory_entries :=
      db.enhanced_memory_entries.filter (fun e =>
        if (conv_entries db e.conversation_id).length >
            svc.max_entries_per_conversation then
          (keep_ids svc db e.conversation_id).contains e.id
        else
          true) }

/-- One labelled section of `PromptService.build_memory_context` for a given
context type: if the retrieval (which goes through the same
`retrieve_enhanced_memory_entries` dispatch, with the given `context_type`
and default tags) is non-empty, a heading followed by one rendered line per
entry whose `importance_score` passes the `min_importance` filter. -/
def context_section_lines (db : DB) (conversation_id : String)
    (context_type : String) (max_entries : Nat) (min_importance : ℚ) :
    List String :=
  let entries := retrieve_enhanced_memory_entries db conversation_id
    (some context_type) [] max_entries
  if entries.isEmpty then []
  else ("\n## " ++ context_type.toUpper ++ " CONTEXT:") ::
    (entries.filter (fun e => decide (min_importance ≤ e.importance_score))).map
      (fun e => "[" ++ e.role.toUpper ++ "] " ++ e.content)

/-- The whole-conversation section of `build_memory_context` (taken when no
context types are given). -/
def conversation_section_lines (db : DB) (conversation_id : String)
    (max_entries : Nat) (min_importance : ℚ) : List String :=
  let entries := retrieve_enhanced_memory_entries db conversation_id
    none [] max_entries
  if entries.isEmpty then []
  else "\n## CONVERSATION CONTEXT:" ::
    (entries.filter (fun e => decide (min_importance ≤ e.importance_score))).map
      (fun e => "[" ++ e.role.toUpper ++ "] " ++ e.content)

/-- The `related_memory_ids` list of `build_memory_context`: the
concatenation (with multiplicity, in retrieval order) of the `relationships`
fields of the plain-conversation retrieval. -/
def related_memory_ids (db : DB) (conversation_id : String)
    (max_entries : Nat) : List Nat :=
  (retrieve_enhanced_memory_entries db conversation_id none [] max_entries).flatMap
    (fun e => e.relationships)

/-- The identifiers actually iterated for the RELATED CONTEXT section:
`related_memory_ids[:5]` — the first five occurrences, not deduplicated. -/
def used_related_ids (db : DB) (conversation_id : String)
    (max_entries : Nat) : List Nat :=
  (related_memory_ids db conversation_id max_entries).take 5

/-- The RELATED CONTEXT section of `build_memory_context`: when
`related_memory_ids` is non-empty, a heading followed by one `[RELATED]`
line for each entry fetched by `get_related_memories(id, limit=3)` for each
iterated identifier occurrence. -/
def related_section_lines (db : DB) (conversation_id : String)
    (max_entries : Nat) : List String :=
  if (related_memory_ids db conversation_id max_entries).isEmpty then []
  else "\n## RELATED CONTEXT:" ::
    (used_related_ids db conversation_id max_entries).flatMap
      (fun i => (get_related_memories db i 3).map
        (fun m => "[RELATED] " ++ m.content))

/-- The `context_parts` list accumulated by `build_memory_context`.  A
`context_types = None` argument and an empty list are both falsy in
`if context_types:` and are modelled by the empty list. -/
def context_parts (db : DB) (conversation_id : String)
    (context_types : List String) (max_entries : Nat) (min_importance : ℚ) :
    List String :=
  (if !context_types.isEmpty then
    context_types.flatMap
      (fun ct => context_section_lines db conversation_id ct max_entries
        min_importance)
  else
    conversation_section_lines db conversation_id max_entries min_importance)
  ++ related_section_lines db conversation_id max_entries

/-- Python's `"\n".join`. -/
def joinParts : List String → String
  | [] => ""
  | [p] => p
  | p :: q :: ps => p ++ "\n" ++ joinParts (q :: ps)

/-- The fixed fallback string of `build_memory_context`. -/
def noContextFallback : String := "No relevant context found."

/-- Model of `PromptService.build_memory_context`:
`"\n".join(context_parts) if context_parts else "No relevant context
found."`. -/
def build_memory_context (db : DB) (conversation_id : String)
    (context_types : List String) (max_entries : Nat) (min_importance : ℚ) :
    String :=
  let parts := context_parts db conversation_id context_types max_entries
    min_importance
  if parts.isEmpty then noContextFallback else joinParts parts

/-! ### Example stores and values used by the concrete theorems -/

/-- Example store for the C1 witness: one expired entry (timestamp far in
the past), one fresh entry, one relationship referencing the expired one. -/
def exC1e1 : EnhancedMemoryEntry :=
  { id := 1, conversation_id := "c1", session_id := "default", role := "user",
    content := "old", context_type := "conversation",
    importance_score := 1, tags := [], relationships := [],
    ttl_seconds := 3600, timestamp := -200000 }

def exC1e2 : EnhancedMemoryEntry :=
  { id := 2, conversation_id := "c1", session_id := "default", role := "user",
    content := "new", context_type := "conversation",
    importance_score := 1, tags := [], relationships := [],
    ttl_seconds := 3600, timestamp := -100 }

def exC1r1 : ContextRelationship :=
  { id := 7, source_memory_id := 1, target_memory_id := 2,
    relationship_type := "references", strength := 1, created_at := 0 }

def exC1db : DB :=
  { enhanced_memory_entries := [exC1e1, exC1e2],
    context_relationships := [exC1r1] }

/-- The empty store. -/
def emptyDB : DB :=
  { enhanced_memory_entries := [], context_relationships := [] }

/-- Rational 9/10, in normalized constructor form. -/
def r9_10 : ℚ := ⟨9, 10, by decide, by decide⟩

/-- Rational 3/10, in normalized constructor form. -/
def r3_10 : ℚ := ⟨3, 10, by decide, by decide⟩

/-- Entry A of the spec's example scenario (`importance_score = 0.9`). -/
def exC3rowA : EnhancedMemoryEntry :=
  { id := 1, conversation_id := "c1", session_id := "default",
    role := "user", content := "A", context_type := "reasoning_step",
    importance_score := r9_10, tags := [], relationships := [],
    ttl_seconds := 3600, timestamp := 100 }

/-- Entry B of the spec's example scenario (`importance_score = 0.3`). -/
def exC3rowB : EnhancedMemoryEntry :=
  { id := 2, conversation_id := "c1", session_id := "default",
    role := "user", content := "B", context_type := "reasoning_step",
    importance_score := r3_10, tags := [], relationships := [],
    ttl_seconds := 3600, timestamp := 101 }

def exC3dbA : DB :=
  { enhanced_memory_entries := [exC3rowA], context_relationships := [] }

def exC3dbAB : DB :=
  { enhanced_memory_entries := [exC3rowA, exC3rowB],
    context_relationships := [] }

/-- Example entry for the C4/C5 counterexamples. -/
def exC4e : EnhancedMemoryEntry :=
  { id := 1, conversation_id := "c1", session_id := "default",
    role := "user", content := "x", context_type := "conversation",
    importance_score := 1, tags := ["t"], relationships := [],
    ttl_seconds := 3600, timestamp := 0 }

def exC4db : DB :=
  { enhanced_memory_entries := [exC4e], context_relationships := [] }

/-- Store with a single entry (id 1) for the C6 counterexample and witness. -/
def exC6e1 : EnhancedMemoryEntry :=
  { id := 1, conversation_id := "c1", session_id := "default",
    role := "user", content := "x", context_type := "conversation",
    importance_score := 1, tags := [], relationships := [],
    ttl_seconds := 3600, timestamp := 0 }

def exC6db : DB :=
  { enhanced_memory_entries := [exC6e1], context_relationships := [] }

def exC7e1 : EnhancedMemoryEntry :=
  { id := 1, conversation_id := "c1", session_id := "default",
    role := "user", content := "src", context_type := "conversation",
    importance_score := 1, tags := [], relationships := [],
    ttl_seconds := 3600, timestamp := 0 }

def exC7e2 : EnhancedMemoryEntry :=
  { id := 2, conversation_id := "c1", session_id := "default",
    role := "user", content := "hi", context_type := "conversation",
    importance_score := 1, tags := [], relationships := [],
    ttl_seconds := 3600, timestamp := 1 }

def exC7e3 : EnhancedMemoryEntry :=
  { id := 3, conversation_id := "c1", session_id := "default",
    role := "user", content := "lo", context_type := "conversation",
    importance_score := 1, tags := [], relationships := [],
    ttl_seconds := 3600, timestamp := 2 }

/-- Store with entries 1, 2, 3 and no relationships yet. -/
def exC7db0 : DB :=
  { enhanced_memory_entries := [exC7e1, exC7e2, exC7e3],
    context_relationships := [] }

def exC7db1 : DB :=
  insert_relationship exC7db0 (new_relationship 1 2 "references" r9_10 10 0)

def exC7db2 : DB :=
  insert_relationship exC7db1 (new_relationship 1 3 "references" r3_10 11 0)

/-- Store for the C8 witness: conversation "c1" holds three entries with
pairwise distinct (importance, timestamp) keys; the witness service uses
cap 2, so one run must keep exactly the two best. -/
def exC8e1 : EnhancedMemoryEntry :=
  { id := 1, conversation_id := "c1", session_id := "default",
    role := "user", content := "low", context_type := "conversation",
    importance_score := r3_10, tags := [], relationships := [],
    ttl_seconds := 3600, timestamp := 50 }

def exC8e2 : EnhancedMemoryEntry :=
  { id := 2, conversation_id := "c1", session_id := "default",
    role := "user", content := "hi", context_type := "conversation",
    importance_score := r9_10, tags := [], relationships := [],
    ttl_seconds := 3600, timestamp := 60 }

def exC8e3 : EnhancedMemoryEntry :=
  { id := 3, conversation_id := "c1", session_id := "default",
    role := "user", content := "mid", context_type := "conversation",
    importance_score := r9_10, tags := [], relationships := [],
    ttl_seconds := 3600, timestamp := 40 }

def exC8db : DB :=
  { enhanced_memory_entries := [exC8e1, exC8e2, exC8e3],
    context_relationships := [] }

/-- A cleanup service configured with cap 2 (the cap is the
`max_entries_per_conversation` attribute the sweep reads). -/
def exC8svc : MemoryCleanupService :=
  { cleanup_interval := 3600, max_entries_per_conversation := 2,
    default_ttl := 86400 }

/-- Entry of conversation "c1" whose denormalized `relationships` list
mentions id 10 twice. -/
def exC9e1 : EnhancedMemoryEntry :=
  { id := 1, conversation_id := "c1", session_id := "default",
    role := "user", content := "root", context_type := "conversation",
    importance_score := 1, tags := [], relationships := [10, 10],
    ttl_seconds := 3600, timestamp := 0 }

def exC9x : EnhancedMemoryEntry :=
  { id := 10, conversation_id := "c2", session_id := "default",
    role := "user", content := "hub", context_type := "conversation",
    importance_score := 1, tags := [], relationships := [],
    ttl_seconds := 3600, timestamp := 0 }

def exC9t1 : EnhancedMemoryEntry :=
  { id := 11, conversation_id := "c2", session_id := "default",
    role := "user", content := "t1", context_type := "conversation",
    importance_score := 1, tags := [], relationships := [],
    ttl_seconds := 3600, timestamp := 1 }

def exC9t2 : EnhancedMemoryEntry :=
  { id := 12, conversation_id := "c2", session_id := "default",
    role := "user", content := "t2", context_type := "conversation",
    importance_score := 1, tags := [], relationships := [],
    ttl_seconds := 3600, timestamp := 2 }

def exC9t3 : EnhancedMemoryEntry :=
  { id := 13, conversation_id := "c2", session_id := "default",
    role := "user", content := "t3", context_type := "conversation",
    importance_score := 1, tags := [], relationships := [],
    ttl_seconds := 3600, timestamp := 3 }

/-- Store in which memory 10 has three outgoing relationship edges. -/
def exC9db : DB :=
  { enhanced_memory_entries := [exC9e1, exC9x, exC9t1, exC9t2, exC9t3],
    context_relationships :=
      [new_relationship 10 11 "references" 1 21 0,
       new_relationship 10 12 "references" 1 22 0,
       new_relationship 10 13 "references" 1 23 0] }

/-- A collected context part always starts with a newline (section heading)
or an opening bracket (rendered entry line). -/
def goodPart (p : String) : Prop :=
  (∃ s, p.data = '\n' :: s) ∨ (∃ s, p.data = '[' :: s)

/-! ### Claim C1: expiry sweep -/

/-- Members of `expired_ids` are exactly the ids of expired entries. -/
theorem mem_expired_ids (svc : MemoryCleanupService) (db : DB) (now : Int)
    (x : Nat) :
    x ∈ expired_ids svc db now ↔
      ∃ d ∈ db.enhanced_memory_entries,
        d.timestamp < now - svc.default_ttl ∧ d.id = x := by
  simp only [expired_ids, List.mem_map, List.mem_filter, decide_eq_true_eq]
  constructor
  · rintro ⟨d, ⟨hd, hts⟩, hid⟩
    exact ⟨d, hd, hts, hid⟩
  · rintro ⟨d, hd, hts, hid⟩
    exact ⟨d, ⟨hd, hts⟩, hid⟩

/-- Membership in the entries table after the expiry sweep. -/
theorem mem_cleanup_expired_entries (svc : MemoryCleanupService) (db : DB)
    (now : Int) (e : EnhancedMemoryEntry) :
    e ∈ (cleanup_expired_entries svc db now).enhanced_memory_entries ↔
      e ∈ db.enhanced_memory_entries ∧ e.id ∉ expired_ids svc db now := by
  simp [cleanup_expired_entries, List.mem_filter, List.contains, List.elem_iff]

/-- Membership in the relationships table after the expiry sweep. -/
theorem mem_cleanup_expired_relationships (svc : MemoryCleanupService)
    (db : DB) (now : Int) (r : ContextRelationship) :
    r ∈ (cleanup_expired_entries svc db now).context_relationships ↔
      r ∈ db.context_relationships ∧
        r.source_memory_id ∉ expired_ids svc db now ∧
        r.target_memory_id ∉ expired_ids svc db now := by
  simp [cleanup_expired_entries, List.mem_filter, List.contains, List.elem_iff,
    and_assoc]

/-- C1.  After one run of `cleanup_expired_entries`, an entry is absent from
the store if and only if its timestamp is older than the fixed 24-hour
threshold (86400 seconds before `now`) — the entry's own `ttl_seconds` field
plays no role — and every relationship whose source or target id equals a
deleted entry's id is deleted in the same sweep. -/
theorem cleanup_expired_entries_spec :
    memory_cleanup_service.default_ttl = 86400 ∧
    ∀ (db : DB) (now : Int),
      (db.enhanced_memory_entries.map (fun e => e.id)).Nodup →
      ∀ e ∈ db.enhanced_memory_entries,
        (e ∉ (cleanup_expired_entries memory_cleanup_service db
            now).enhanced_memory_entries ↔ e.timestamp < now - 86400) ∧
        ∀ r ∈ db.context_relationships,
          (r.source_memory_id = e.id ∨ r.target_memory_id = e.id) →
          e.timestamp < now - 86400 →
          r ∉ (cleanup_expired_entries memory_cleanup_service db
            now).context_relationships := by
  refine ⟨rfl, ?_⟩
  intro db now hnodup e he
  have hidmem : e.timestamp < now - 86400 →
      e.id ∈ expired_ids memory_cleanup_service db now := by
    intro hts
    exact (mem_expired_ids _ db now e.id).mpr ⟨e, he, hts, rfl⟩
  constructor
  · rw [mem_cleanup_expired_entries]
    constructor
    · intro h
      by_contra hts
      exact h ⟨he, fun hid => by
        rcases (mem_expired_ids _ db now e.id).mp hid with ⟨d, hd, hdts, hdid⟩
        exact hts (List.inj_on_of_nodup_map hnodup hd he hdid ▸ hdts)⟩
    · intro hts h
      exact h.2 (hidmem hts)
  · intro r _ hsrc hts hmem
    rcases (mem_cleanup_expired_relationships _ db now r).mp hmem with
      ⟨_, hs, ht⟩
    rcases hsrc with h | h
    · exact hs (h ▸ hidmem hts)
    · exact ht (h ▸ hidmem hts)

/-- Witness for C1 at a concrete store and sweep time. -/
theorem cleanup_expired_entries_spec_witness :
    (exC1db.enhanced_memory_entries.map (fun e => e.id)).Nodup ∧
    exC1e1 ∉ (cleanup_expired_entries memory_cleanup_service exC1db
      0).enhanced_memory_entries ∧
    exC1r1 ∉ (cleanup_expired_entries memory_cleanup_service exC1db
      0).context_relationships :=
  ⟨by decide,
   ((cleanup_expired_entries_spec.2 exC1db 0 (by decide) exC1e1
      (by decide)).1).mpr (by decide),
   (cleanup_expired_entries_spec.2 exC1db 0 (by decide) exC1e1
      (by decide)).2 exC1r1 (by decide) (Or.inl (by decide)) (by decide)⟩

/-! ### Claim C2: store validation -/

/-- Counterexample to C2 as stated: storing with empty `content` and empty
`conversation_id` (and a valid score) does not fail — it succeeds and
persists a record, because the pydantic model has no non-empty validator on
either field. -/
theorem store_empty_content_accepted :
    store_enhanced_memory_entry emptyDB "" "default" "user" "" "conversation"
        1 [] [] 3600 1 0 =
      .ok (insert_entry emptyDB
        (new_entry "" "default" "user" "" "conversation" 1 [] [] 3600 1 0),
        1) ∧
    (insert_entry emptyDB
      (new_entry "" "default" "user" "" "conversation" 1 [] [] 3600 1
        0)).enhanced_memory_entries.length = 1 := ⟨rfl, rfl⟩

/-- C2 (amended).  `store_enhanced_memory_entry` fails with a
`ValidationError` (writing nothing) when `importance_score` is outside
`[0, 1]`; with an in-range score and a valid `context_type` it succeeds and
appends exactly one new record.  Empty `content` or `conversation_id` is not
validated and does not prevent the write. -/
theorem store_enhanced_memory_entry_spec :
    ∀ (db : DB) (conversation_id session_id role content context_type : String)
      (importance_score : ℚ) (tags : List String) (relationships : List Nat)
      (ttl_seconds : Int) (newId : Nat) (now : Int),
      (¬ (0 ≤ importance_score ∧ importance_score ≤ 1) →
        store_enhanced_memory_entry db conversation_id session_id role content
          context_type importance_score tags relationships ttl_seconds newId
          now = .error .validationError) ∧
      ((0 ≤ importance_score ∧ importance_score ≤ 1) →
        context_type ∈ validContextTypes →
        store_enhanced_memory_entry db conversation_id session_id role content
          context_type importance_score tags relationships ttl_seconds newId
          now =
          .ok (insert_entry db (new_entry conversation_id session_id role
            content context_type importance_score tags relationships
            ttl_seconds newId now), newId)) := by
  intro db conversation_id session_id role content context_type
    importance_score tags relationships ttl_seconds newId now
  constructor
  · intro h
    rw [store_enhanced_memory_entry, if_neg]
    intro hc
    exact h ⟨hc.1, hc.2.1⟩
  · intro h1 h2
    rw [store_enhanced_memory_entry, if_pos ⟨h1.1, h1.2, h2⟩]

/-- Witness for C2 at concrete inputs: score 2 is rejected with a
`ValidationError`, score 9/10 is accepted and appends one record. -/
theorem store_enhanced_memory_entry_spec_witness :
    (¬ (0 ≤ (2 : ℚ) ∧ (2 : ℚ) ≤ 1)) ∧
    store_enhanced_memory_entry emptyDB "c1" "default" "user" "hello"
        "conversation" 2 [] [] 3600 1 0 = .error .validationError ∧
    store_enhanced_memory_entry emptyDB "c1" "default" "user" "hello"
        "conversation" r9_10 [] [] 3600 1 0 =
      .ok (insert_entry emptyDB (new_entry "c1" "default" "user" "hello"
        "conversation" r9_10 [] [] 3600 1 0), 1) :=
  ⟨by decide,
   (store_enhanced_memory_entry_spec emptyDB "c1" "default" "user" "hello"
      "conversation" 2 [] [] 3600 1 0).1 (by decide),
   (store_enhanced_memory_entry_spec emptyDB "c1" "default" "user" "hello"
      "conversation" r9_10 [] [] 3600 1 0).2 (by decide) (by decide)⟩

/-! ### Claim C3: retrieval ordering -/

/-- A `take` of an insertion sort is sorted. -/
theorem sorted_take_insertionSort {α : Type} (r : α → α → Prop)
    [DecidableRel r] [IsTotal α r] [IsTrans α r] (l : List α) (n : Nat) :
    List.Sorted r ((l.insertionSort r).take n) :=
  List.Pairwise.sublist (List.take_sublist n _) (List.sorted_insertionSort r l)

/-- C3.  Every retrieval result is sorted by `importance_score` descending,
then `timestamp` descending; and in the spec's example scenario — store A
(score 0.9) then B (score 0.3) in conversation "c1", both of context type
`reasoning_step` — the retrieval by context type returns A before B. -/
theorem retrieve_enhanced_memory_entries_sorted :
    (∀ (db : DB) (conversation_id : String) (context_type : Option String)
      (tags : List String) (limit : Nat),
      List.Sorted impTsRel
        (retrieve_enhanced_memory_entries db conversation_id context_type tags
          limit)) ∧
    store_enhanced_memory_entry emptyDB "c1" "default" "user" "A"
        "reasoning_step" r9_10 [] [] 3600 1 100 = .ok (exC3dbA, 1) ∧
    store_enhanced_memory_entry exC3dbA "c1" "default" "user" "B"
        "reasoning_step" r3_10 [] [] 3600 2 101 = .ok (exC3dbAB, 2) ∧
    retrieve_enhanced_memory_entries exC3dbAB "c1" (some "reasoning_step") []
        50 = [exC3rowA, exC3rowB] := by
  refine ⟨?_, rfl, rfl, rfl⟩
  intro db conversation_id context_type tags limit
  rw [retrieve_enhanced_memory_entries]
  split
  · exact sorted_take_insertionSort impTsRel _ limit
  · split
    · exact sorted_take_insertionSort impTsRel _ limit
    · exact sorted_take_insertionSort impTsRel _ limit

/-! ### Claim C4: filter precedence -/

/-- C4 (amended).  Exactly one filter is applied, with precedence: a given
and non-empty (truthy) `context_type` selects the context-type query;
otherwise non-empty `tags` selects the tag search; otherwise the plain
conversation scan runs. -/
theorem retrieve_enhanced_memory_entries_dispatch :
    ∀ (db : DB) (conversation_id : String) (context_type : Option String)
      (tags : List String) (limit : Nat),
      (truthyStr context_type = true →
        retrieve_enhanced_memory_entries db conversation_id context_type tags
          limit = get_by_context_type db (context_type.getD "") limit) ∧
      (truthyStr context_type = false → tags ≠ [] →
        retrieve_enhanced_memory_entries db conversation_id context_type tags
          limit = search_by_tags db tags limit) ∧
      (truthyStr context_type = false → tags = [] →
        retrieve_enhanced_memory_entries db conversation_id context_type tags
          limit = get_by_conversation db conversation_id limit) := by
  intro db conversation_id context_type tags limit
  refine ⟨fun h => ?_, fun h h' => ?_, fun h h' => ?_⟩
  · rw [retrieve_enhanced_memory_entries, if_pos h]
  · rw [retrieve_enhanced_memory_entries, if_neg (by simp [h]), if_pos]
    simpa using h'
  · rw [retrieve_enhanced_memory_entries, if_neg (by simp [h]), if_neg]
    simp [h']

/-- Counterexample to C4 as stated: with `context_type` given as the empty
string (falsy in Python) and non-empty `tags`, the code runs the tag search,
not the context-type query. -/
theorem retrieve_dispatch_empty_context_type :
    retrieve_enhanced_memory_entries exC4db "c1" (some "") ["t"] 50 =
      search_by_tags exC4db ["t"] 50 ∧
    retrieve_enhanced_memory_entries exC4db "c1" (some "") ["t"] 50 ≠
      get_by_context_type exC4db "" 50 := by
  constructor
  · rfl
  · decide

/-- Witness for C4: the three dispatch branches at concrete inputs. -/
theorem retrieve_enhanced_memory_entries_dispatch_witness :
    (retrieve_enhanced_memory_entries exC4db "c1" (some "conversation") ["t"]
      50 = get_by_context_type exC4db "conversation" 50) ∧
    (retrieve_enhanced_memory_entries exC4db "c1" none ["t"] 50 =
      search_by_tags exC4db ["t"] 50) ∧
    (retrieve_enhanced_memory_entries exC4db "c1" none [] 50 =
      get_by_conversation exC4db "c1" 50) :=
  ⟨(retrieve_enhanced_memory_entries_dispatch exC4db "c1"
      (some "conversation") ["t"] 50).1 (by decide),
   (retrieve_enhanced_memory_entries_dispatch exC4db "c1" none ["t"]
      50).2.1 (by decide) (by decide),
   (retrieve_enhanced_memory_entries_dispatch exC4db "c1" none []
      50).2.2 (by decide) rfl⟩

/-! ### Claim C5: conversation-id independence of filtered retrieval -/

/-- C5 (amended).  Two retrievals that differ only in `conversation_id`
return identical results whenever they supply the same non-empty
`context_type`, or (with `context_type` absent) the same non-empty `tags`:
neither the context-type query nor the tag query has a `conversation_id`
predicate, so entries of other conversations are included. -/
theorem retrieve_enhanced_memory_entries_conversation_independent :
    ∀ (db : DB) (c c' : String) (context_type : String) (tags : List String)
      (limit : Nat),
      (context_type ≠ "" →
        retrieve_enhanced_memory_entries db c (some context_type) tags limit =
        retrieve_enhanced_memory_entries db c' (some context_type) tags
          limit) ∧
      (tags ≠ [] →
        retrieve_enhanced_memory_entries db c none tags limit =
        retrieve_enhanced_memory_entries db c' none tags limit) := by
  intro db c c' context_type tags limit
  constructor
  · intro h
    have ht : truthyStr (some context_type) = true := by
      simp [truthyStr, h]
    rw [retrieve_enhanced_memory_entries, if_pos ht,
      retrieve_enhanced_memory_entries, if_pos ht]
  · intro h
    have ht : truthyStr (none : Option String) = false := rfl
    have ht' : (!tags.isEmpty) = true := by
      simpa using h
    rw [retrieve_enhanced_memory_entries, if_neg (by simp [ht]), if_pos ht',
      retrieve_enhanced_memory_entries, if_neg (by simp [ht]), if_pos ht']

/-- Counterexample to C5 as stated: `some ""` is a non-None `context_type`,
but with it (and no tags) the code falls through to the plain conversation
scan, and the two calls differ. -/
theorem retrieve_empty_context_type_not_independent :
    retrieve_enhanced_memory_entries exC4db "c1" (some "") [] 50 ≠
      retrieve_enhanced_memory_entries exC4db "c2" (some "") [] 50 := by
  decide

/-- Witness for C5: concrete calls over two different conversation ids. -/
theorem retrieve_conversation_independent_witness :
    (retrieve_enhanced_memory_entries exC4db "c1" (some "conversation") [] 50 =
      retrieve_enhanced_memory_entries exC4db "c2" (some "conversation") []
        50) ∧
    (retrieve_enhanced_memory_entries exC4db "c1" none ["t"] 50 =
      retrieve_enhanced_memory_entries exC4db "c2" none ["t"] 50) :=
  ⟨(retrieve_enhanced_memory_entries_conversation_independent exC4db "c1"
      "c2" "conversation" [] 50).1 (by decide),
   (retrieve_enhanced_memory_entries_conversation_independent exC4db "c1"
      "c2" "" ["t"] 50).2 (by decide)⟩

/-! ### Claim C6: relating entries with a missing endpoint -/

/-- Counterexample to C6 as stated: relating id 1 to the nonexistent id 2
fails not with a `NotFoundError` (the service performs no existence check
and no such error class exists in the code) but with the database's
foreign-key violation. -/
theorem create_context_relationship_no_notFoundError :
    create_context_relationship exC6db 1 2 "references" 1 7 0 =
      .error .foreignKeyViolation ∧
    MCPError.foreignKeyViolation ≠ MCPError.notFoundError := by
  constructor
  · rfl
  · decide

/-- C6 (amended).  If either endpoint id does not resolve to an existing
entry, `create_context_relationship` fails — via the `context_relationships`
FOREIGN KEY constraints, as a foreign-key violation rather than a
`NotFoundError` — and, the transaction being rolled back, no relationship
record is written (the operation returns no updated store). -/
theorem create_context_relationship_spec :
    ∀ (db : DB) (source_memory_id target_memory_id : Nat)
      (relationship_type : String) (strength : ℚ) (newId : Nat) (now : Int),
      (0 ≤ strength ∧ strength ≤ 1) →
      ((¬ ∃ e ∈ db.enhanced_memory_entries, e.id = source_memory_id) ∨
       (¬ ∃ e ∈ db.enhanced_memory_entries, e.id = target_memory_id)) →
      create_context_relationship db source_memory_id target_memory_id
        relationship_type strength newId now = .error .foreignKeyViolation := by
  intro db source_memory_id target_memory_id relationship_type strength newId
    now hs hmiss
  rw [create_context_relationship, if_pos hs, if_neg]
  rw [Bool.and_eq_true, List.any_eq_true, List.any_eq_true]
  rintro ⟨⟨e, he, hid⟩, ⟨e', he', hid'⟩⟩
  rcases hmiss with h | h
  · exact h ⟨e, he, by simpa using hid⟩
  · exact h ⟨e', he', by simpa using hid'⟩

/-- Witness for C6 at a concrete store: the target id 2 does not exist. -/
theorem create_context_relationship_spec_witness :
    (0 ≤ (1 : ℚ) ∧ (1 : ℚ) ≤ 1) ∧
    create_context_relationship exC6db 1 2 "leads_to" 1 9 5 =
      .error .foreignKeyViolation :=
  ⟨by decide,
   create_context_relationship_spec exC6db 1 2 "leads_to" 1 9 5 (by decide)
     (Or.inr (by decide))⟩

/-! ### Claim C7: related-memory traversal -/

/-- C7.  `get_related_memories` returns only entries reached by one outgoing
hop (a relationship whose source is the queried id and whose target is the
returned entry), ordered by edge strength descending then target importance
descending; in particular, after relating 1→2 (strength 0.9) and 1→3
(strength 0.3), `get_related_memories 1` returns the strength-0.9 target
before the strength-0.3 one. -/
theorem get_related_memories_spec :
    (∀ (db : DB) (memory_id : Nat) (limit : Nat),
      (∀ e ∈ get_related_memories db memory_id limit,
        ∃ r ∈ db.context_relationships,
          r.source_memory_id = memory_id ∧ r.target_memory_id = e.id ∧
          e ∈ db.enhanced_memory_entries) ∧
      List.Sorted strengthImpRel (get_related_rows db memory_id limit)) ∧
    create_context_relationship exC7db0 1 2 "references" r9_10 10 0 =
      .ok (exC7db1, 10) ∧
    create_context_relationship exC7db1 1 3 "references" r3_10 11 0 =
      .ok (exC7db2, 11) ∧
    get_related_memories exC7db2 1 10 = [exC7e2, exC7e3] := by
  refine ⟨?_, rfl, rfl, by decide⟩
  intro db memory_id limit
  constructor
  · intro e he
    rcases List.mem_map.mp he with ⟨p, hp, hpe⟩
    have hp' := List.mem_of_mem_take hp
    rw [List.mem_insertionSort] at hp'
    rcases List.mem_flatMap.mp hp' with ⟨r, hr, hpr⟩
    rcases List.mem_map.mp hpr with ⟨t, ht, hte⟩
    have hrsrc : r.source_memory_id = memory_id := by
      simpa using List.of_mem_filter hr
    have htmem : t ∈ db.enhanced_memory_entries := List.mem_of_mem_filter ht
    have htid : t.id = r.target_memory_id := by
      simpa using List.of_mem_filter ht
    refine ⟨r, List.mem_of_mem_filter hr, hrsrc, ?_, ?_⟩
    · rw [← hpe, ← hte]
      exact htid.symm
    · rw [← hpe, ← hte]
      exact htmem
  · exact sorted_take_insertionSort strengthImpRel _ limit

/-- Witness for C7: the one-hop characterisation applied to the concrete
element `exC7e2` of the concrete query result. -/
theorem get_related_memories_spec_witness :
    exC7e2 ∈ get_related_memories exC7db2 1 10 ∧
    ∃ r ∈ exC7db2.context_relationships,
      r.source_memory_id = 1 ∧ r.target_memory_id = exC7e2.id ∧
      exC7e2 ∈ exC7db2.enhanced_memory_entries :=
  ⟨by decide,
   (get_related_memories_spec.1 exC7db2 1 10).1 exC7e2 (by decide)⟩

/-! ### Claim C8: size sweep -/

/-- The entries of one conversation after the size sweep: untouched when the
conversation is within the cap, otherwise filtered to the keep set. -/
theorem conv_entries_cleanup_large (svc : MemoryCleanupService) (db : DB)
    (c : String) :
    conv_entries (cleanup_large_conversations svc db) c =
      if svc.max_entries_per_conversation < (conv_entries db c).length then
        (conv_entries db c).filter
          (fun e => (keep_ids svc db c).contains e.id)
      else conv_entries db c := by
  have h1 : conv_entries (cleanup_large_conversations svc db) c =
      (conv_entries db c).filter (fun e =>
        if (conv_entries db e.conversation_id).length >
            svc.max_entries_per_conversation then
          (keep_ids svc db e.conversation_id).contains e.id
        else true) := by
    simp only [conv_entries, cleanup_large_conversations]
    exact List.filter_comm _ _ _
  rw [h1]
  by_cases hlen :
    svc.max_entries_per_conversation < (conv_entries db c).length
  · rw [if_pos hlen]
    apply List.filter_congr
    intro e he
    have hc : e.conversation_id = c := by
      simpa using (List.mem_filter.mp he).2
    rw [hc]
    simp [hlen]
  · rw [if_neg hlen]
    have hcongr : ∀ e ∈ conv_entries db c,
        (if (conv_entries db e.conversation_id).length >
            svc.max_entries_per_conversation then
          (keep_ids svc db e.conversation_id).contains e.id
        else true) = (fun _ => true) e := by
      intro e he
      have hc : e.conversation_id = c := by
        simpa using (List.mem_filter.mp he).2
      rw [hc]
      simp [hlen]
    rw [List.filter_congr hcongr, List.filter_true]

/-- Membership in the keep-filtered list is membership in the ranked
top-`n`, given id uniqueness. -/
theorem mem_filter_keep {l : List EnhancedMemoryEntry} {n : Nat}
    (hnd : (l.map (fun e => e.id)).Nodup) (x : EnhancedMemoryEntry) :
    x ∈ l.filter (fun e =>
        (((l.insertionSort impTsRel).take n).map (fun e => e.id)).contains
          e.id) ↔
      x ∈ (l.insertionSort impTsRel).take n := by
  have hperm : List.Perm (l.insertionSort impTsRel) l :=
    List.perm_insertionSort impTsRel l
  constructor
  · intro hx
    rcases List.mem_filter.mp hx with ⟨hxl, hxk⟩
    have hxid : x.id ∈ ((l.insertionSort impTsRel).take n).map
        (fun e => e.id) := by
      simpa [List.contains, List.elem_iff] using hxk
    rcases List.mem_map.mp hxid with ⟨y, hyTop, hyid⟩
    have hyl : y ∈ l := hperm.mem_iff.mp (List.mem_of_mem_take hyTop)
    have : y = x := List.inj_on_of_nodup_map hnd hyl hxl hyid
    exact this ▸ hyTop
  · intro hxTop
    have hxl : x ∈ l := hperm.mem_iff.mp (List.mem_of_mem_take hxTop)
    refine List.mem_filter.mpr ⟨hxl, ?_⟩
    simp only [List.contains, List.elem_iff]
    exact List.mem_map.mpr ⟨x, hxTop, rfl⟩

/-- C8.  With the default cap 1000, one run of `cleanup_large_conversations`
leaves every conversation at or under the cap unchanged; a conversation over
the cap retains exactly `cap` entries, namely (as a permutation) the top-cap
of its entries ranked by `importance_score desc, timestamp desc`, and every
retained entry ranks no worse than every deleted entry of the same
conversation. -/
theorem cleanup_large_conversations_spec :
    memory_cleanup_service.max_entries_per_conversation = 1000 ∧
    ∀ (svc : MemoryCleanupService) (db : DB) (c : String),
      (db.enhanced_memory_entries.map (fun e => e.id)).Nodup →
      ((conv_entries db c).length ≤ svc.max_entries_per_conversation →
        conv_entries (cleanup_large_conversations svc db) c =
          conv_entries db c) ∧
      (svc.max_entries_per_conversation < (conv_entries db c).length →
        (conv_entries (cleanup_large_conversations svc db) c).length =
          svc.max_entries_per_conversation ∧
        List.Perm (conv_entries (cleanup_large_conversations svc db) c)
          (((conv_entries db c).insertionSort impTsRel).take
            svc.max_entries_per_conversation) ∧
        ∀ e ∈ conv_entries (cleanup_large_conversations svc db) c,
          ∀ d ∈ conv_entries db c,
            d ∉ conv_entries (cleanup_large_conversations svc db) c →
            impTsRel e d) := by
  refine ⟨rfl, ?_⟩
  intro svc db c hnodup
  have hmapBefore : ((conv_entries db c).map (fun e => e.id)).Nodup :=
    hnodup.sublist ((List.filter_sublist _).map _)
  have hperm_sorted :
      List.Perm ((conv_entries db c).insertionSort impTsRel)
        (conv_entries db c) :=
    List.perm_insertionSort impTsRel _
  constructor
  · intro hle
    rw [conv_entries_cleanup_large, if_neg (by omega)]
  · intro hgt
    have hafter_eq : conv_entries (cleanup_large_conversations svc db) c =
        (conv_entries db c).filter
          (fun e => (keep_ids svc db c).contains e.id) := by
      rw [conv_entries_cleanup_large, if_pos hgt]
    have hkeep : keep_ids svc db c =
        (((conv_entries db c).insertionSort impTsRel).take
          svc.max_entries_per_conversation).map (fun e => e.id) := rfl
    have hmem : ∀ x, x ∈ conv_entries (cleanup_large_conversations svc db) c
        ↔ x ∈ ((conv_entries db c).insertionSort impTsRel).take
          svc.max_entries_per_conversation := by
      intro x
      rw [hafter_eq, hkeep]
      exact mem_filter_keep hmapBefore x
    have hndBefore : (conv_entries db c).Nodup :=
      List.Nodup.of_map _ hmapBefore
    have hndSorted : ((conv_entries db c).insertionSort impTsRel).Nodup :=
      hperm_sorted.nodup_iff.mpr hndBefore
    have hndTop : (((conv_entries db c).insertionSort impTsRel).take
        svc.max_entries_per_conversation).Nodup :=
      hndSorted.sublist (List.take_sublist _ _)
    have hndAfter :
        (conv_entries (cleanup_large_conversations svc db) c).Nodup := by
      rw [hafter_eq]
      exact hndBefore.sublist (List.filter_sublist _)
    have hperm :
        List.Perm (conv_entries (cleanup_large_conversations svc db) c)
          (((conv_entries db c).insertionSort impTsRel).take
            svc.max_entries_per_conversation) :=
      (List.perm_ext_iff_of_nodup hndAfter hndTop).mpr hmem
    refine ⟨?_, hperm, ?_⟩
    · rw [hperm.length_eq, List.length_take, hperm_sorted.length_eq]
      exact Nat.min_eq_left (Nat.le_of_lt hgt)
    · intro e heA d hdB hdA
      have heTop := (hmem e).mp heA
      have hdSorted : d ∈ (conv_entries db c).insertionSort impTsRel :=
        hperm_sorted.mem_iff.mpr hdB
      have hdDrop : d ∈ ((conv_entries db c).insertionSort impTsRel).drop
          svc.max_entries_per_conversation := by
        have hd2 : d ∈ ((conv_entries db c).insertionSort impTsRel).take
            svc.max_entries_per_conversation ++
            ((conv_entries db c).insertionSort impTsRel).drop
              svc.max_entries_per_conversation := by
          rw [List.take_append_drop]
          exact hdSorted
        rcases List.mem_append.mp hd2 with h | h
        · exact absurd ((hmem d).mpr h) hdA
        · exact h
      have hPairwise := List.sorted_insertionSort impTsRel (conv_entries db c)
      rw [← List.take_append_drop svc.max_entries_per_conversation
        ((conv_entries db c).insertionSort impTsRel)] at hPairwise
      rcases List.pairwise_append.mp hPairwise with ⟨_, _, hcross⟩
      exact hcross e heTop d hdDrop

/-- Witness for C8: over-cap conversation trimmed to the cap at a concrete
store, and the top-2 permutation conclusion instantiated there. -/
theorem cleanup_large_conversations_spec_witness :
    (exC8db.enhanced_memory_entries.map (fun e => e.id)).Nodup ∧
    exC8svc.max_entries_per_conversation <
      (conv_entries exC8db "c1").length ∧
    (conv_entries (cleanup_large_conversations exC8svc exC8db) "c1").length =
      exC8svc.max_entries_per_conversation ∧
    List.Perm (conv_entries (cleanup_large_conversations exC8svc exC8db) "c1")
      (((conv_entries exC8db "c1").insertionSort impTsRel).take
        exC8svc.max_entries_per_conversation) :=
  ⟨by decide, by decide,
   ((cleanup_large_conversations_spec.2 exC8svc exC8db "c1"
      (by decide)).2 (by decide)).1,
   ((cleanup_large_conversations_spec.2 exC8svc exC8db "c1"
      (by decide)).2 (by decide)).2.1⟩

/-! ### Claim C9: bounds of the RELATED CONTEXT section -/

/-- Counterexample to C9 as stated: the code iterates the first five
identifier occurrences without deduplication, so the single distinct
identifier 10 — occurring twice — has six related entries fetched and
rendered, not at most three. -/
theorem build_related_duplicate_overfetch :
    used_related_ids exC9db "c1" 20 = [10, 10] ∧
    ¬ (((used_related_ids exC9db "c1" 20).filter
        (fun j => j == 10)).flatMap
        (fun j => get_related_memories exC9db j 3)).length ≤ 3 ∧
    (related_section_lines exC9db "c1" 20).length = 7 := by
  refine ⟨by decide, by decide, by decide⟩

/-- C9 (amended).  The RELATED CONTEXT section draws from at most the first
5 related-identifier occurrences of the fetched entries' `relationships`
lists (hence from at most 5 distinct identifiers), and each iterated
occurrence fetches at most 3 related entries; a duplicated identifier is
iterated once per occurrence, so it can contribute up to 3 entries per
occurrence rather than 3 in total. -/
theorem build_memory_context_related_bounds :
    ∀ (db : DB) (conversation_id : String) (max_entries : Nat),
      (used_related_ids db conversation_id max_entries).length ≤ 5 ∧
      ((used_related_ids db conversation_id max_entries).dedup).length ≤ 5 ∧
      ∀ i ∈ used_related_ids db conversation_id max_entries,
        (get_related_memories db i 3).length ≤ 3 := by
  intro db conversation_id max_entries
  refine ⟨List.length_take_le 5 _, ?_, ?_⟩
  · exact le_trans (List.Sublist.length_le (List.dedup_sublist _))
      (List.length_take_le 5 _)
  · intro i _
    rw [get_related_memories, List.length_map, get_related_rows]
    exact List.length_take_le 3 _

/-- Witness for C9: the per-occurrence bound at the concrete store. -/
theorem build_memory_context_related_bounds_witness :
    10 ∈ used_related_ids exC9db "c1" 20 ∧
    (get_related_memories exC9db 10 3).length ≤ 3 :=
  ⟨by decide,
   (build_memory_context_related_bounds exC9db "c1" 20).2.2 10 (by decide)⟩

/-! ### Claim C10: fallback string of the context builder -/

theorem good_header (x y : String) : goodPart ("\n## " ++ x ++ y) :=
  Or.inl ⟨"## ".data ++ (x.data ++ y.data), by
    rw [String.data_append, String.data_append]; rfl⟩

theorem good_line (a b : String) : goodPart ("[" ++ a ++ "] " ++ b) :=
  Or.inr ⟨(a.data ++ "] ".data) ++ b.data, by
    rw [String.data_append, String.data_append, String.data_append]; rfl⟩

theorem good_related_line (b : String) : goodPart ("[RELATED] " ++ b) :=
  Or.inr ⟨"RELATED] ".data ++ b.data, by rw [String.data_append]; rfl⟩

theorem good_conversation_header : goodPart "\n## CONVERSATION CONTEXT:" :=
  Or.inl ⟨"## CONVERSATION CONTEXT:".data, rfl⟩

theorem good_related_header : goodPart "\n## RELATED CONTEXT:" :=
  Or.inl ⟨"## RELATED CONTEXT:".data, rfl⟩

theorem goodPart_of_mem_context_section {db : DB} {c ct : String} {m : Nat}
    {mi : ℚ} {p : String} (hp : p ∈ context_section_lines db c ct m mi) :
    goodPart p := by
  simp only [context_section_lines] at hp
  split at hp
  · exact absurd hp (List.not_mem_nil p)
  · rcases List.mem_cons.mp hp with rfl | hmem
    · exact good_header _ _
    · rcases List.mem_map.mp hmem with ⟨e, _, rfl⟩
      exact good_line _ _

theorem goodPart_of_mem_conversation_section {db : DB} {c : String} {m : Nat}
    {mi : ℚ} {p : String} (hp : p ∈ conversation_section_lines db c m mi) :
    goodPart p := by
  simp only [conversation_section_lines] at hp
  split at hp
  · exact absurd hp (List.not_mem_nil p)
  · rcases List.mem_cons.mp hp with rfl | hmem
    · exact good_conversation_header
    · rcases List.mem_map.mp hmem with ⟨e, _, rfl⟩
      exact good_line _ _

theorem goodPart_of_mem_related_section {db : DB} {c : String} {m : Nat}
    {p : String} (hp : p ∈ related_section_lines db c m) : goodPart p := by
  simp only [related_section_lines] at hp
  split at hp
  · exact absurd hp (List.not_mem_nil p)
  · rcases List.mem_cons.mp hp with rfl | hmem
    · exact good_related_header
    · rcases List.mem_flatMap.mp hmem with ⟨i, _, hmem2⟩
      rcases List.mem_map.mp hmem2 with ⟨e, _, rfl⟩
      exact good_related_line _

theorem goodPart_of_mem_context_parts {db : DB} {c : String}
    {cts : List String} {m : Nat} {mi : ℚ} {p : String}
    (hp : p ∈ context_parts db c cts m mi) : goodPart p := by
  rw [context_parts] at hp
  rcases List.mem_append.mp hp with h | h
  · split at h
    · rcases List.mem_flatMap.mp h with ⟨ct, _, hmem⟩
      exact goodPart_of_mem_context_section hmem
    · exact goodPart_of_mem_conversation_section h
  · exact goodPart_of_mem_related_section h

/-- The join of a non-empty parts list starts with the data of its first
part. -/
theorem joinParts_data_cons (p : String) (ps : List String) :
    ∃ s, (joinParts (p :: ps)).data = p.data ++ s := by
  cases ps with
  | nil => exact ⟨[], (List.append_nil _).symm⟩
  | cons q ps =>
    refine ⟨'\n' :: (joinParts (q :: ps)).data, ?_⟩
    show ((p ++ "\n") ++ joinParts (q :: ps)).data = _
    rw [String.data_append, String.data_append, List.append_assoc]
    rfl

/-- C10.  `build_memory_context` returns the fixed fallback string exactly
when no part was collected; with at least one collected part it returns the
newline-join of the collected parts, which is never the fallback string. -/
theorem build_memory_context_fallback_spec :
    ∀ (db : DB) (conversation_id : String) (context_types : List String)
      (max_entries : Nat) (min_importance : ℚ),
      (context_parts db conversation_id context_types max_entries
          min_importance = [] →
        build_memory_context db conversation_id context_types max_entries
          min_importance = noContextFallback) ∧
      (context_parts db conversation_id context_types max_entries
          min_importance ≠ [] →
        build_memory_context db conversation_id context_types max_entries
          min_importance =
          joinParts (context_parts db conversation_id context_types
            max_entries min_importance) ∧
        build_memory_context db conversation_id context_types max_entries
          min_importance ≠ noContextFallback) := by
  intro db conversation_id context_types max_entries min_importance
  constructor
  · intro h
    simp [build_memory_context, h]
  · intro h
    have hne : (context_parts db conversation_id context_types max_entries
        min_importance).isEmpty = false := by
      rcases List.exists_cons_of_ne_nil h with ⟨b, L, hbl⟩
      rw [hbl]
      rfl
    have hbuild : build_memory_context db conversation_id context_types
        max_entries min_importance =
        joinParts (context_parts db conversation_id context_types max_entries
          min_importance) := by
      simp [build_memory_context, hne]
    refine ⟨hbuild, ?_⟩
    rcases List.exists_cons_of_ne_nil h with ⟨b, L, hbl⟩
    have hgood : goodPart b :=
      goodPart_of_mem_context_parts (hbl ▸ List.mem_cons_self b L)
    have hdata : ∃ s, (joinParts (context_parts db conversation_id
        context_types max_entries min_importance)).data = b.data ++ s := by
      rw [hbl]
      exact joinParts_data_cons b L
    intro heq
    rw [hbuild] at heq
    have hD := congrArg String.data heq
    rcases hdata with ⟨s, hs⟩
    rw [hs] at hD
    have hfall : noContextFallback.data =
        'N' :: "o relevant context found.".data := rfl
    rw [hfall] at hD
    rcases hgood with ⟨t, ht⟩ | ⟨t, ht⟩
    · rw [ht, List.cons_append] at hD
      injection hD with h1 _
      exact absurd h1 (by decide)
    · rw [ht, List.cons_append] at hD
      injection hD with h1 _
      exact absurd h1 (by decide)

/-- Witness for C10: the empty store yields the fallback; the one-entry
store `exC4db` yields a non-fallback join of its collected parts. -/
theorem build_memory_context_fallback_spec_witness :
    context_parts emptyDB "c1" [] 20 0 = [] ∧
    build_memory_context emptyDB "c1" [] 20 0 = noContextFallback ∧
    context_parts exC4db "c1" [] 20 0 ≠ [] ∧
    build_memory_context exC4db "c1" [] 20 0 ≠ noContextFallback :=
  ⟨by decide, (build_memory_context_fallback_spec emptyDB "c1" [] 20 0).1
    (by decide),
   by decide, ((build_memory_context_fallback_spec exC4db "c1" [] 20 0).2
    (by decide)).2⟩

end MCPMemory
